import Mathlib

/-!
# Verification of the sol-os-mvp security core

A shallow embedding of the security layer of `sol-os-mvp`
(`src/backend/security.py` and the authentication flows of
`src/backend/main.py`), with theorems settling the specification claims.

Modelling conventions, used throughout:

* Byte strings are `List Nat` (each element one byte; the model does not
  need the `< 256` bound for any claim, and a "bit flip" is an xor with a
  power of two on one element).
* Python `str.encode()` inside the Fernet cipher is modelled as the list of
  character codepoints (`strBytes`), an injective encoding; for bcrypt the
  real UTF-8 encoding is modelled (`utf8Encode`), because bcrypt's 72-byte
  truncation is measured in UTF-8 bytes.
* Cryptographic primitives from external libraries (`cryptography`,
  `bcrypt`, `python-jose`) are modelled as *ideal* (collision-free)
  primitives: PBKDF2-HMAC-SHA256 is an injective function of its key
  material and salt, Fernet is an ideal authenticated cipher whose
  ciphertext is an injective encoding of (key, nonce, plaintext) followed by
  an authentication tag over exactly those bytes, bcrypt's digest is an
  injective function of the salt and the (truncated) password bytes, SHA-256
  digests are injective functions of their preimage, and a JWT carries its
  payload together with the signing key.  Everything *around* those
  primitives — what the repository's own code feeds them and does with the
  results — is translated directly from the source.
* Clock readings (`datetime.utcnow()`) are explicit `Int` parameters
  (seconds); per-call randomness (Fernet IVs, `secrets.token_bytes`,
  `jti` values, database-assigned ids) is an explicit parameter of each
  operation that consumes it.
* `raise` is modelled with `Except`.
-/

/-! ## Byte-string helpers -/

/-- Python `s.encode()` as seen by the cipher model: the codepoints of `s`.
Injective, which is all the cipher model needs of the byte encoding. -/
def strBytes (s : String) : List Nat :=
  s.data.map Char.toNat

/-- Partial inverse of `strBytes`: rebuild a string from codepoints. -/
def bytesStr (l : List Nat) : String :=
  String.mk (l.map Char.ofNat)

/-- UTF-8 encoding of one character (the real byte count matters for
bcrypt's 72-byte truncation). -/
def utf8Char (c : Char) : List Nat :=
  let n := c.toNat
  if n < 0x80 then [n]
  else if n < 0x800 then
    [0xC0 + n / 64, 0x80 + n % 64]
  else if n < 0x10000 then
    [0xE0 + n / 4096, 0x80 + n / 64 % 64, 0x80 + n % 64]
  else
    [0xF0 + n / 262144, 0x80 + n / 4096 % 64, 0x80 + n / 64 % 64, 0x80 + n % 64]

/-- UTF-8 encoding of a string, as `password.encode('utf-8')` produces. -/
def utf8Encode (s : String) : List Nat :=
  s.data.flatMap utf8Char

/-- Flip bit `k` of byte `i` of a byte string (single-bit corruption). -/
def flipBit (c : List Nat) (i k : Nat) : List Nat :=
  c.set i ((c.getD i 0) ^^^ (2 ^ k))

/-! ## `DataEncryptionService` (`src/backend/security.py`, lines 21–64) -/

/-- A key returned by `derive_user_key`: PBKDF2-HMAC-SHA256 with 100000
iterations over the key material `f"{master_key}:{user_id}"` and the user's
salt, modelled as an ideal KDF — the key is identified with the exact
(key material, salt) pair fed to the KDF. -/
structure FernetKey where
  password : String
  salt : List Nat
deriving DecidableEq, Repr

/-- Fernet decryption failure (`cryptography.fernet.InvalidToken`), the
integrity error of the spec's `decrypt_field`. -/
inductive FernetError where
  | invalidToken
deriving DecidableEq, Repr

/-- The authenticated body of an ideal Fernet token: an injective byte
encoding of (key, nonce, plaintext), each variable-length field preceded by
its length. -/
def fernetBody (key : FernetKey) (nonce : Nat) (content : String) : List Nat :=
  (strBytes key.password).length :: strBytes key.password
    ++ key.salt.length :: key.salt
    ++ nonce :: strBytes content

/-- Parse an authenticated body back into (key, nonce, plaintext). -/
def parseFernetBody (b : List Nat) : Option (FernetKey × Nat × String) :=
  match b with
  | [] => none
  | pl :: r1 =>
    if pl ≤ r1.length then
      match r1.drop pl with
      | [] => none
      | sl :: r2 =>
        if sl ≤ r2.length then
          match r2.drop sl with
          | [] => none
          | nonce :: ptb =>
            some (⟨bytesStr (r1.take pl), r2.take sl⟩, nonce, bytesStr ptb)
        else none
    else none

/-- `Fernet(key).encrypt(content.encode())` in the ideal-cipher model: the
ciphertext is the authenticated body followed by its authentication tag,
the tag being (ideally collision-free, hence modelled as a full copy of)
a MAC over the body.  `nonce` is the fresh per-call randomness (the IV). -/
def fernetEncrypt (key : FernetKey) (nonce : Nat) (content : String) : List Nat :=
  fernetBody key nonce content ++ fernetBody key nonce content

/-- `Fernet(key).decrypt(token)`: split off the authentication tag, check it
against the body, recover (key', nonce, plaintext) from the body and check
the key; any failure is `InvalidToken`. -/
def fernetDecrypt (key : FernetKey) (token : List Nat) : Except FernetError String :=
  let L := token.length / 2
  if token.length % 2 ≠ 0 then .error .invalidToken
  else if token.take L ≠ token.drop L then .error .invalidToken
  else
    match parseFernetBody (token.take L) with
    | none => .error .invalidToken
    | some (k, _nonce, content) =>
      if k = key then .ok content else .error .invalidToken

namespace DataEncryptionService

/-- `derive_user_key`: PBKDF2 over `f"{self.master_key}:{user_id}"` with the
user's salt (iterations fixed at 100000, output length 32, then
urlsafe-base64 — constants that do not influence key identity in the
ideal-KDF model). -/
def derive_user_key (master_key : String) (user_id : String)
    (user_salt : List Nat) : FernetKey :=
  ⟨master_key ++ ":" ++ user_id, user_salt⟩

/-- `encrypt_text`: derive the user key and Fernet-encrypt the content;
`nonce` is the cipher's fresh per-call randomness. -/
def encrypt_text (master_key : String) (user_id : String) (user_salt : List Nat)
    (content : String) (nonce : Nat) : List Nat :=
  fernetEncrypt (derive_user_key master_key user_id user_salt) nonce content

/-- `decrypt_text`: derive the user key and Fernet-decrypt. -/
def decrypt_text (master_key : String) (user_id : String) (user_salt : List Nat)
    (encrypted_content : List Nat) : Except FernetError String :=
  fernetDecrypt (derive_user_key master_key user_id user_salt) encrypted_content

end DataEncryptionService

/-! ### Round-trip of the byte encoding -/

theorem bytesStr_strBytes (s : String) : bytesStr (strBytes s) = s := by
  cases s with
  | mk data =>
    show String.mk (List.map Char.ofNat (List.map Char.toNat data)) = String.mk data
    rw [List.map_map]
    have h : (Char.ofNat ∘ Char.toNat) = id := funext (fun c => Char.ofNat_toNat c)
    rw [h, List.map_id]

theorem parseFernetBody_fernetBody (key : FernetKey) (nonce : Nat)
    (content : String) :
    parseFernetBody (fernetBody key nonce content) = some (key, nonce, content) := by
  simp [parseFernetBody, fernetBody, List.take_left, List.drop_left,
    bytesStr_strBytes]

/-- Helper: the two halves of `b ++ b`. -/
theorem take_half_append (b : List Nat) : (b ++ b).take ((b ++ b).length / 2) = b := by
  have h : (b ++ b).length / 2 = b.length := by
    simp [List.length_append]
    omega
  rw [h, List.take_left]

theorem drop_half_append (b : List Nat) : (b ++ b).drop ((b ++ b).length / 2) = b := by
  have h : (b ++ b).length / 2 = b.length := by
    simp [List.length_append]
    omega
  rw [h, List.drop_left]

theorem fernetDecrypt_fernetEncrypt (key : FernetKey) (nonce : Nat)
    (content : String) :
    fernetDecrypt key (fernetEncrypt key nonce content) = .ok content := by
  unfold fernetDecrypt fernetEncrypt
  simp only [take_half_append, drop_half_append]
  have hlen : ((fernetBody key nonce content).length
      + (fernetBody key nonce content).length) % 2 = 0 := by
    omega
  simp [hlen, parseFernetBody_fernetBody]

/-- **C1** — For every key derived from the same `(user_id, salt)` pair and
every plaintext string (and every master key and per-call cipher
randomness), `decrypt_text` applied to the result of `encrypt_text` with
identical `user_id` and salt returns the original plaintext. -/
theorem C1_encrypt_decrypt_roundtrip (master_key user_id : String)
    (user_salt : List Nat) (content : String) (nonce : Nat) :
    DataEncryptionService.decrypt_text master_key user_id user_salt
      (DataEncryptionService.encrypt_text master_key user_id user_salt content nonce)
      = .ok content := by
  unfold DataEncryptionService.decrypt_text DataEncryptionService.encrypt_text
  exact fernetDecrypt_fernetEncrypt _ nonce content

/-! ### Tamper evidence (C7) -/

/-- Xoring in a set bit always changes a byte. -/
theorem xor_two_pow_ne (x k : Nat) : x ^^^ 2 ^ k ≠ x := by
  intro h
  have h2 : x ^^^ (x ^^^ 2 ^ k) = x ^^^ x := congrArg (x ^^^ ·) h
  rw [← Nat.xor_assoc, Nat.xor_self, Nat.zero_xor] at h2
  exact (Nat.two_pow_pos k).ne' h2

/-- Setting an in-range position to a different value changes the list. -/
theorem set_ne_of_getD {l : List Nat} {i : Nat} {a : Nat}
    (h : i < l.length) (hne : a ≠ l.getD i 0) : l.set i a ≠ l := by
  intro hEq
  have h1 : (l.set i a).getD i 0 = l.getD i 0 := by rw [hEq]
  have h2 : (l.set i a).getD i 0 = a := by simp [List.getD, h]
  exact hne (h2 ▸ h1)

/-- Any token whose two halves disagree is rejected by `fernetDecrypt`. -/
theorem fernetDecrypt_neq_halves (key : FernetKey) (t : List Nat)
    (h : t.take (t.length / 2) ≠ t.drop (t.length / 2)) :
    fernetDecrypt key t = .error .invalidToken := by
  unfold fernetDecrypt
  by_cases hm : t.length % 2 ≠ 0 <;> simp [hm, h]

/-- Flipping any bit of any well-formed ciphertext breaks the tag check. -/
theorem fernetDecrypt_flipBit (key : FernetKey) (b : List Nat) (i k : Nat)
    (h : i < (b ++ b).length) :
    fernetDecrypt key (flipBit (b ++ b) i k) = .error .invalidToken := by
  apply fernetDecrypt_neq_halves
  rcases Nat.lt_or_ge i b.length with hi | hi
  · -- corruption lands in the body half
    have hgd : (b ++ b).getD i 0 = b.getD i 0 := by
      simp [List.getD, List.getElem?_append_left hi]
    have hset : flipBit (b ++ b) i k = b.set i ((b.getD i 0) ^^^ 2 ^ k) ++ b := by
      rw [flipBit, hgd, List.set_append_left _ _ hi]
    rw [hset]
    have hlenset : (b.set i ((b.getD i 0) ^^^ 2 ^ k)).length = b.length :=
      List.length_set b i _
    have hlen : (b.set i ((b.getD i 0) ^^^ 2 ^ k) ++ b).length = b.length + b.length := by
      rw [List.length_append, hlenset]
    have hhalf : (b.set i ((b.getD i 0) ^^^ 2 ^ k) ++ b).length / 2 = b.length := by
      rw [hlen]; omega
    rw [hhalf]
    rw [← hlenset, List.take_left, hlenset, List.drop_left' hlenset]
    exact set_ne_of_getD hi (xor_two_pow_ne _ k)
  · -- corruption lands in the tag half
    have hlenapp : (b ++ b).length = b.length + b.length := List.length_append b b
    have hj : i - b.length < b.length := by omega
    have hgd : (b ++ b).getD i 0 = b.getD (i - b.length) 0 := by
      simp [List.getD, List.getElem?_append_right hi]
    have hset : flipBit (b ++ b) i k
        = b ++ b.set (i - b.length) ((b.getD (i - b.length) 0) ^^^ 2 ^ k) := by
      rw [flipBit, hgd, List.set_append_right _ _ hi]
    rw [hset]
    have hlenset : (b.set (i - b.length) ((b.getD (i - b.length) 0) ^^^ 2 ^ k)).length
        = b.length := List.length_set b _ _
    have hlen : (b ++ b.set (i - b.length) ((b.getD (i - b.length) 0) ^^^ 2 ^ k)).length
        = b.length + b.length := by
      rw [List.length_append, hlenset]
    have hhalf : (b ++ b.set (i - b.length) ((b.getD (i - b.length) 0) ^^^ 2 ^ k)).length / 2
        = b.length := by
      rw [hlen]; omega
    rw [hhalf, List.take_left, List.drop_left]
    exact fun hEq => set_ne_of_getD hj (xor_two_pow_ne _ k) hEq.symm

/-- **C7** — For every derived key and every ciphertext produced by
`encrypt_text` with that key, flipping any single bit (bit `k` of byte `i`)
of the ciphertext makes `decrypt_text` with the same key fail with the
integrity error `InvalidToken`; no plaintext is ever returned. -/
theorem C7_bitflip_integrity (master_key user_id : String) (user_salt : List Nat)
    (content : String) (nonce i k : Nat)
    (h : i < (DataEncryptionService.encrypt_text master_key user_id user_salt
      content nonce).length) :
    DataEncryptionService.decrypt_text master_key user_id user_salt
      (flipBit (DataEncryptionService.encrypt_text master_key user_id user_salt
        content nonce) i k)
      = .error .invalidToken := by
  unfold DataEncryptionService.decrypt_text DataEncryptionService.encrypt_text at *
  unfold fernetEncrypt at *
  exact fernetDecrypt_flipBit _ _ i k h

/-- Witness for C7 at a concrete input: flipping the lowest bit of the first
ciphertext byte of an encryption of `"hi"` is rejected. -/
theorem C7_bitflip_integrity_witness :
    0 < (DataEncryptionService.encrypt_text "m" "u" [7] "hi" 0).length ∧
    DataEncryptionService.decrypt_text "m" "u" [7]
      (flipBit (DataEncryptionService.encrypt_text "m" "u" [7] "hi" 0) 0 0)
      = .error .invalidToken :=
  ⟨by decide, C7_bitflip_integrity "m" "u" [7] "hi" 0 0 0 (by decide)⟩

/-! ## Service construction (`__init__`) and email indexing -/

/-- A fatal configuration error (`ValueError` raised in a service
constructor). -/
inductive ConfigError where
  | missingEnvVar (name : String)
deriving DecidableEq, Repr

namespace DataEncryptionService

/-- `DataEncryptionService.__init__`: read `DATA_ENCRYPTION_MASTER_KEY` from
the environment and raise `ValueError` if it is falsy (absent or the empty
string); the constructed service is its stored `master_key`. -/
def init (env : String → Option String) : Except ConfigError String :=
  match env "DATA_ENCRYPTION_MASTER_KEY" with
  | none => .error (.missingEnvVar "DATA_ENCRYPTION_MASTER_KEY")
  | some s =>
    if s = "" then .error (.missingEnvVar "DATA_ENCRYPTION_MASTER_KEY")
    else .ok s

end DataEncryptionService

/-- A SHA-256 hex digest, modelled as an ideal (injective) hash: the digest
is identified with its preimage. -/
structure Sha256Digest where
  preimage : String
deriving DecidableEq, Repr

/-- `hash_email_for_index`: SHA-256 hex digest of the lower-cased email. -/
def DataEncryptionService.hash_email_for_index (email : String) : Sha256Digest :=
  ⟨email.toLower⟩

namespace SecureAuthService

/-- `SecureAuthService.__init__`: read `JWT_SECRET_KEY` and raise
`ValueError` if it is falsy; the constructed service is its stored
`secret_key` (the constants below are also set unconditionally there). -/
def init (env : String → Option String) : Except ConfigError String :=
  match env "JWT_SECRET_KEY" with
  | none => .error (.missingEnvVar "JWT_SECRET_KEY")
  | some s =>
    if s = "" then .error (.missingEnvVar "JWT_SECRET_KEY")
    else .ok s

/-- `self.access_token_expire_minutes = 15`. -/
def access_token_expire_minutes : Int := 15

/-- `self.refresh_token_expire_days = 30`. -/
def refresh_token_expire_days : Int := 30

end SecureAuthService

/-! ## Password hashing (bcrypt model) -/

/-- A bcrypt hash string (`$2b$12$<salt><digest>`): self-describing,
embedding the cost factor and salt.  The digest is modelled as an ideal
injective function of the salt and the *first 72 bytes* of the UTF-8
encoded password — the bcrypt algorithm (and the `bcrypt` package's
`hashpw`/`checkpw`) ignores every byte beyond the 72nd. -/
structure BcryptHash where
  cost : Nat
  salt : Nat
  digest : List Nat
deriving DecidableEq, Repr

namespace SecureAuthService

/-- `hash_password`: `bcrypt.hashpw(password.encode('utf-8'),
bcrypt.gensalt(rounds=12))`.  `salt` is the per-call randomness from
`gensalt`; the ideal digest records the truncated password bytes. -/
def hash_password (password : String) (salt : Nat) : BcryptHash :=
  ⟨12, salt, (utf8Encode password).take 72⟩

/-- `verify_password`: `bcrypt.checkpw(password.encode('utf-8'),
hashed.encode('utf-8'))` — recompute the digest with the salt and cost
embedded in the stored hash and compare digests. -/
def verify_password (password : String) (hashed : BcryptHash) : Bool :=
  (utf8Encode password).take 72 == hashed.digest

end SecureAuthService

/-! ## Tokens (`python-jose` JWT model) -/

/-- The JWT payload dict built by `create_access_token` /
`create_refresh_token`.  `permissions` is `none` for refresh tokens (their
payload has no `permissions` key). -/
structure JWTPayload where
  sub : String
  type : String
  permissions : Option (List String)
  exp : Int
  iat : Int
  jti : Nat
deriving DecidableEq, Repr

/-- `jwt.encode(payload, secret_key, algorithm="HS256")` in the
ideal-signature model: the token carries its payload and the signing key
(a signature is unforgeable without the key and checked against it). -/
structure JWT where
  payload : JWTPayload
  key : String
deriving DecidableEq, Repr

/-- `verify_token` failure modes: `jwt.ExpiredSignatureError` is re-raised
as HTTP 401 "Token has expired", any other `jwt.JWTError` as HTTP 401
"Invalid token". -/
inductive AuthError where
  | tokenExpired
  | invalidToken
deriving DecidableEq, Repr

namespace SecureAuthService

/-- `create_access_token`: payload with `type="access"`,
`permissions or []`, `exp = now + 15 minutes`, signed with the service
secret.  `now` is the clock reading, `jti` the per-call randomness. -/
def create_access_token (secret_key : String) (user_id : String)
    (permissions : Option (List String)) (now : Int) (jti : Nat) : JWT :=
  ⟨⟨user_id, "access", some (permissions.getD []),
    now + access_token_expire_minutes * 60, now, jti⟩, secret_key⟩

/-- `create_refresh_token`: payload with `type="refresh"`, no
`permissions` key, `exp = now + 30 days`. -/
def create_refresh_token (secret_key : String) (user_id : String)
    (now : Int) (jti : Nat) : JWT :=
  ⟨⟨user_id, "refresh", none,
    now + refresh_token_expire_days * 86400, now, jti⟩, secret_key⟩

/-- `verify_token`: `jwt.decode` checks the signature, then the `exp`
claim (`python-jose` raises `ExpiredSignatureError` when `exp < now`);
on success the decoded payload is returned unchanged — no `type` check
happens here. -/
def verify_token (secret_key : String) (token : JWT) (now : Int) :
    Except AuthError JWTPayload :=
  if token.key ≠ secret_key then .error .invalidToken
  else if token.payload.exp < now then .error .tokenExpired
  else .ok token.payload

end SecureAuthService

/-! ### C10, C4, C5, C6 -/

/-- **C10** — Key derivation is deterministic: two `derive_user_key` calls
with identical master key, user id and salt return identical keys.  (In
this embedding `derive_user_key` consumes no per-call randomness and no
clock — mirroring the source, where it is a fixed-iteration PBKDF2 of its
arguments only, in contrast to `generate_user_salt`.) -/
theorem C10_derive_user_key_deterministic (m₁ m₂ u₁ u₂ : String)
    (s₁ s₂ : List Nat) (hm : m₁ = m₂) (hu : u₁ = u₂) (hs : s₁ = s₂) :
    DataEncryptionService.derive_user_key m₁ u₁ s₁
      = DataEncryptionService.derive_user_key m₂ u₂ s₂ := by
  rw [hm, hu, hs]

/-- Witness for C10 at concrete inputs. -/
theorem C10_derive_user_key_deterministic_witness :
    ("mk" = "mk" ∧ "u1" = "u1" ∧ ([3, 5] : List Nat) = [3, 5])
    ∧ DataEncryptionService.derive_user_key "mk" "u1" [3, 5]
      = DataEncryptionService.derive_user_key "mk" "u1" [3, 5] :=
  ⟨⟨rfl, rfl, rfl⟩,
    C10_derive_user_key_deterministic "mk" "mk" "u1" "u1" [3, 5] [3, 5] rfl rfl rfl⟩

/-- **C4 (counterexample)** — The claim says construction fails for every
secret that is absent, empty, *or below a minimum entropy length*.  The
constructors only test falsiness: with both environment variables set to
the one-character secret `"x"` — shorter than any reasonable minimum
entropy length (e.g. 32) — both constructors succeed. -/
theorem C4_counterexample :
    DataEncryptionService.init (fun _ => some "x") = .ok "x"
    ∧ SecureAuthService.init (fun _ => some "x") = .ok "x"
    ∧ String.length "x" < 32 := by
  constructor
  · rfl
  · exact ⟨rfl, by decide⟩

/-- **C4 (amended)** — Constructing the core services fails at startup
exactly when the master secret (resp. the signing secret) is absent or
empty, and succeeds otherwise; there is no minimum-length check. -/
theorem C4_init_fail_fast (env : String → Option String) :
    ((∃ s, DataEncryptionService.init env = .ok s)
      ↔ (env "DATA_ENCRYPTION_MASTER_KEY" ≠ none
          ∧ env "DATA_ENCRYPTION_MASTER_KEY" ≠ some ""))
    ∧ ((∃ s, SecureAuthService.init env = .ok s)
      ↔ (env "JWT_SECRET_KEY" ≠ none ∧ env "JWT_SECRET_KEY" ≠ some "")) := by
  constructor
  · unfold DataEncryptionService.init
    cases h : env "DATA_ENCRYPTION_MASTER_KEY" with
    | none => simp
    | some s =>
      by_cases hs : s = "" <;> simp [hs]
  · unfold SecureAuthService.init
    cases h : env "JWT_SECRET_KEY" with
    | none => simp
    | some s =>
      by_cases hs : s = "" <;> simp [hs]

/-- **C5 (counterexample)** — The claim says `verify_password` returns
false for *every* different password.  bcrypt uses only the first 72
password bytes: hashing 73 copies of `'a'` and verifying 72 copies of
`'a'` — a different password — returns true. -/
theorem C5_counterexample :
    String.mk (List.replicate 73 'a') ≠ String.mk (List.replicate 72 'a')
    ∧ SecureAuthService.verify_password (String.mk (List.replicate 72 'a'))
      (SecureAuthService.hash_password (String.mk (List.replicate 73 'a')) 0)
      = true := by
  constructor
  · decide
  · decide

/-- **C5 (amended)** — `verify_password(password, hash_password(password))`
is always true, and `verify_password(password', hash_password(password))`
is false whenever the first 72 bytes of the UTF-8 encodings of `password'`
and `password` differ (bcrypt ignores every byte beyond the 72nd). -/
theorem C5_password_hash_verify (password p' : String) (salt : Nat)
    (hne : (utf8Encode p').take 72 ≠ (utf8Encode password).take 72) :
    SecureAuthService.verify_password password
      (SecureAuthService.hash_password password salt) = true
    ∧ SecureAuthService.verify_password p'
      (SecureAuthService.hash_password password salt) = false := by
  unfold SecureAuthService.verify_password SecureAuthService.hash_password
  simp [hne]

/-- Witness for C5 (amended) at concrete inputs. -/
theorem C5_password_hash_verify_witness :
    (utf8Encode "Other0!x").take 72 ≠ (utf8Encode "Secret1!").take 72
    ∧ SecureAuthService.verify_password "Secret1!"
      (SecureAuthService.hash_password "Secret1!" 5) = true
    ∧ SecureAuthService.verify_password "Other0!x"
      (SecureAuthService.hash_password "Secret1!" 5) = false :=
  ⟨by decide,
    (C5_password_hash_verify "Secret1!" "Other0!x" 5 (by decide)).1,
    (C5_password_hash_verify "Secret1!" "Other0!x" 5 (by decide)).2⟩

/-- **C6** — An access token issued for a subject at time `now` with the
configured 15-minute lifetime verifies successfully 1 minute later,
returning claims whose subject is the issuing subject, and verification
16 minutes after issuance fails with the token-expired error. -/
theorem C6_access_token_expiry (secret user_id : String)
    (permissions : Option (List String)) (now : Int) (jti : Nat) :
    SecureAuthService.verify_token secret
      (SecureAuthService.create_access_token secret user_id permissions now jti)
      (now + 60)
      = .ok ⟨user_id, "access", some (permissions.getD []), now + 900, now, jti⟩
    ∧ SecureAuthService.verify_token secret
      (SecureAuthService.create_access_token secret user_id permissions now jti)
      (now + 960)
      = .error .tokenExpired := by
  unfold SecureAuthService.verify_token SecureAuthService.create_access_token
  unfold SecureAuthService.access_token_expire_minutes
  have h1 : ¬ (now + 15 * 60 < now + 60) := by omega
  have h2 : now + 15 * 60 < now + 960 := by omega
  constructor
  · simp [h1]
  · simp [h2]

/-! ## `SecurityAuditService` (`src/backend/security.py`, lines 128–173) -/

/-- `hashlib.sha256(s.encode()).hexdigest()` as the ideal hash (note: no
lower-casing here, unlike `hash_email_for_index`). -/
def sha256Hex (s : String) : Sha256Digest := ⟨s⟩

/-- One row of the `security_audit_logs` table (`models.SecurityAuditLog`);
`timestamp` is filled with `datetime.utcnow()` at insert time. -/
structure SecurityAuditLog where
  event_type : String
  user_id : Option String
  ip_address : Option String
  user_agent : Option String
  success : Bool
  event_details : List (String × Sha256Digest)
  risk_level : String
  timestamp : Int
deriving DecidableEq, Repr

namespace SecurityAuditService

/-- `log_security_event`: insert one audit row; `now` is the row's
creation-time default `datetime.utcnow()`. -/
def log_security_event (audit : List SecurityAuditLog) (event_type : String)
    (user_id ip_address user_agent : Option String) (success : Bool)
    (event_details : List (String × Sha256Digest)) (risk_level : String)
    (now : Int) : List SecurityAuditLog :=
  audit ++ [⟨event_type, user_id, ip_address, user_agent, success,
    event_details, risk_level, now⟩]

/-- `check_failed_login_attempts`: count rows with
`event_type == "login_failed"`, `timestamp > utcnow() - 15 minutes` and
`event_details` containing the SHA-256 of the email, and report a lock at
5 or more.  `ip_address` is accepted but unused by the query, as in the
source.  No lock flag is stored anywhere: the result is recomputed from
the log on every call. -/
def check_failed_login_attempts (audit : List SecurityAuditLog)
    (email : String) (ip_address : String) (now : Int) : Bool :=
  decide (5 ≤ (audit.filter (fun l =>
    l.event_type == "login_failed"
    && decide (now - 900 < l.timestamp)
    && l.event_details.contains ("email_hash", sha256Hex email))).length)

end SecurityAuditService

/-- The audit row that `log_security_event` inserts for one failed login
against `email` from `ip` at time `t` in the C8 scenario. -/
def failedLoginRow (email ip : String) (t : Int) : SecurityAuditLog :=
  ⟨"login_failed", none, some ip, none, false,
    [("email_hash", sha256Hex email)], "medium", t⟩

/-- The row predicate of the `check_failed_login_attempts` query. -/
def failedLoginPred (email : String) (nw : Int) (l : SecurityAuditLog) : Bool :=
  l.event_type == "login_failed" && decide (nw - 900 < l.timestamp)
    && l.event_details.contains ("email_hash", sha256Hex email)

theorem failedLoginPred_row (email ip : String) (nw t : Int) :
    failedLoginPred email nw (failedLoginRow email ip t)
      = decide (nw - 900 < t) := by
  simp [failedLoginPred, failedLoginRow]

/-- Recording failures one by one through `log_security_event` yields the
corresponding rows in order. -/
theorem foldl_log_failed (email ip : String) (ts : List Int)
    (init : List SecurityAuditLog) :
    ts.foldl (fun audit t => SecurityAuditService.log_security_event audit
      "login_failed" none (some ip) none false
      [("email_hash", sha256Hex email)] "medium" t) init
    = init ++ ts.map (failedLoginRow email ip) := by
  induction ts generalizing init with
  | nil => simp only [List.foldl_nil, List.map_nil, List.append_nil]
  | cons t l ih =>
    rw [List.foldl_cons, ih, List.map_cons]
    simp [SecurityAuditService.log_security_event, failedLoginRow]

/-- The lockout query keeps exactly the rows whose timestamp is inside the
trailing window. -/
theorem filter_failedLoginRows (email ip : String) (nw : Int) (ts : List Int) :
    (ts.map (failedLoginRow email ip)).filter (failedLoginPred email nw)
    = (ts.filter (fun t => decide (nw - 900 < t))).map (failedLoginRow email ip) := by
  induction ts with
  | nil => rfl
  | cons t l ih =>
    rw [List.map_cons, List.filter_cons, List.filter_cons, failedLoginPred_row]
    by_cases h : nw - 900 < t
    · simp [h, ih]
    · simp [h, ih]

/-- **C8** — Recording (through `log_security_event`) 5 or more
failed-login events for an identity with timestamps inside the trailing
15-minute window ending at `now` makes `check_failed_login_attempts`
return true at `now`; once the window has fully elapsed past those events
with no new failures (`nowLater`), the same check returns false — with no
stored lock flag and no unlock step, the result being recomputed from the
event log each time. -/
theorem C8_lockout_window (email ip : String) (ts : List Int)
    (now nowLater : Int)
    (hcount : 5 ≤ ts.length)
    (hin : ∀ t ∈ ts, now - 900 < t ∧ t ≤ now)
    (hout : ∀ t ∈ ts, t ≤ nowLater - 900) :
    SecurityAuditService.check_failed_login_attempts
      (ts.foldl (fun audit t => SecurityAuditService.log_security_event audit
        "login_failed" none (some ip) none false
        [("email_hash", sha256Hex email)] "medium" t) []) email ip now = true
    ∧ SecurityAuditService.check_failed_login_attempts
      (ts.foldl (fun audit t => SecurityAuditService.log_security_event audit
        "login_failed" none (some ip) none false
        [("email_hash", sha256Hex email)] "medium" t) []) email ip nowLater
      = false := by
  unfold SecurityAuditService.check_failed_login_attempts
  rw [foldl_log_failed, List.nil_append]
  have hpred : ∀ nw : Int,
      (fun (l : SecurityAuditLog) => l.event_type == "login_failed"
        && decide (nw - 900 < l.timestamp)
        && l.event_details.contains ("email_hash", sha256Hex email))
      = failedLoginPred email nw := fun _ => rfl
  rw [hpred now, hpred nowLater, filter_failedLoginRows, filter_failedLoginRows]
  constructor
  · have hall : ts.filter (fun t => decide (now - 900 < t)) = ts :=
      List.filter_eq_self.mpr (fun t ht => decide_eq_true (hin t ht).1)
    rw [hall, List.length_map]
    exact decide_eq_true hcount
  · have hnone : ts.filter (fun t => decide (nowLater - 900 < t)) = [] :=
      List.filter_eq_nil_iff.mpr (fun t ht => by
        have h1 := hout t ht
        simp only [decide_eq_true_eq]
        omega)
    rw [hnone]
    rfl

/-- Witness for C8 at concrete inputs: five failures between `t = 100` and
`t = 500`, checked at `now = 900` (locked) and `now = 2000` (unlocked). -/
theorem C8_lockout_window_witness :
    (5 ≤ ([100, 200, 300, 400, 500] : List Int).length
      ∧ (∀ t ∈ ([100, 200, 300, 400, 500] : List Int),
          (900 : Int) - 900 < t ∧ t ≤ 900)
      ∧ (∀ t ∈ ([100, 200, 300, 400, 500] : List Int),
          t ≤ (2000 : Int) - 900))
    ∧ SecurityAuditService.check_failed_login_attempts
      (([100, 200, 300, 400, 500] : List Int).foldl
        (fun audit t => SecurityAuditService.log_security_event audit
          "login_failed" none (some "1.2.3.4") none false
          [("email_hash", sha256Hex "alice@x.com")] "medium" t) [])
      "alice@x.com" "1.2.3.4" 900 = true
    ∧ SecurityAuditService.check_failed_login_attempts
      (([100, 200, 300, 400, 500] : List Int).foldl
        (fun audit t => SecurityAuditService.log_security_event audit
          "login_failed" none (some "1.2.3.4") none false
          [("email_hash", sha256Hex "alice@x.com")] "medium" t) [])
      "alice@x.com" "1.2.3.4" 2000 = false :=
  ⟨⟨by decide, by decide, by decide⟩,
    (C8_lockout_window "alice@x.com" "1.2.3.4" [100, 200, 300, 400, 500]
      900 2000 (by decide) (by decide) (by decide)).1,
    (C8_lockout_window "alice@x.com" "1.2.3.4" [100, 200, 300, 400, 500]
      900 2000 (by decide) (by decide) (by decide)).2⟩

/-! ## Application flows (`src/backend/main.py`) -/

/-- A row of the `users` table (`models.User`), restricted to the columns
the authentication/encryption flows touch.  Database defaults:
`is_active = True`, `failed_login_attempts = 0`. -/
structure User where
  id : String
  email_hash : Sha256Digest
  email_encrypted : List Nat
  username : String
  password_hash : BcryptHash
  encryption_salt : List Nat
  is_active : Bool
  last_login : Option Int
  failed_login_attempts : Nat
  created_by : String
deriving DecidableEq, Repr

/-- The database state the modelled endpoints read and write. -/
structure DB where
  users : List User
  audit : List SecurityAuditLog
deriving DecidableEq, Repr

/-- An `HTTPException` raised by an endpoint. -/
inductive HTTPError where
  | badRequest (detail : String)
  | unauthorized (detail : String)
  | notFound (detail : String)
deriving DecidableEq, Repr

/-- The special-character set of `validate_password_strength`, by
codepoint (the source literal is the ASCII punctuation string
`!@#$%^&*()_+-=[]` followed by the two braces and `|;':\",./<>?`). -/
def passwordSpecialChars : List Nat :=
  [33, 64, 35, 36, 37, 94, 38, 42, 40, 41, 95, 43, 45, 61, 91, 93,
   123, 125, 124, 59, 39, 58, 34, 44, 46, 47, 60, 62, 63]

/-- `validate_password_strength` (`src/backend/security.py`, lines
383–393): at least 8 characters with an upper-case letter, a lower-case
letter, a digit and a special character. -/
def validate_password_strength (password : String) : Bool :=
  if password.length < 8 then false
  else
    password.data.any (fun c => c.isUpper)
    && password.data.any (fun c => c.isLower)
    && password.data.any (fun c => c.isDigit)
    && password.data.any (fun c => passwordSpecialChars.contains c.toNat)

/-- Request body of `/api/v1/auth/register`. -/
structure UserRegister where
  email : String
  username : String
  password : String
deriving DecidableEq, Repr

/-- Request body of `/api/v1/auth/login`. -/
structure UserLogin where
  email : String
  password : String
deriving DecidableEq, Repr

/-- The token pair returned by `register_user` and `login_user`. -/
structure TokenPair where
  access_token : JWT
  refresh_token : JWT
deriving DecidableEq, Repr

/-- `register_user` (`src/backend/main.py`, lines 237–311): validate the
password, reject duplicate email hash or username, generate a salt, encrypt
the email **with the username as the user id for key derivation** (source
comment: "Use username as temporary user_id for encryption"), store the
user, and issue tokens for `str(new_user.id)`.  Explicit-entropy
parameters: `user_salt` (from `generate_user_salt`), `nonce` (Fernet IV),
`bsalt` (bcrypt salt), `new_id` (database-assigned id), `jti1`/`jti2`
(token ids); `now` is the clock. -/
def register_user (master_key jwt_secret : String) (db : DB)
    (reg : UserRegister) (client_ip : String) (user_salt : List Nat)
    (nonce : Nat) (bsalt : Nat) (new_id : String) (now : Int)
    (jti1 jti2 : Nat) : Except HTTPError (DB × TokenPair × User) :=
  if ¬ validate_password_strength reg.password then
    .error (.badRequest "Password must be at least 8 characters with uppercase, lowercase, digit, and special character")
  else
    let email_hash := DataEncryptionService.hash_email_for_index reg.email
    if (db.users.find? (fun u => u.email_hash == email_hash)).isSome then
      .error (.badRequest "Email already registered")
    else if (db.users.find? (fun u => u.username == reg.username)).isSome then
      .error (.badRequest "Username already taken")
    else
      let encrypted_email := DataEncryptionService.encrypt_text master_key
        reg.username user_salt reg.email nonce
      let new_user : User := ⟨new_id, email_hash, encrypted_email,
        reg.username, SecureAuthService.hash_password reg.password bsalt,
        user_salt, true, none, 0, client_ip⟩
      .ok (⟨db.users ++ [new_user], db.audit⟩,
        ⟨SecureAuthService.create_access_token jwt_secret new_id none now jti1,
          SecureAuthService.create_refresh_token jwt_secret new_id now jti2⟩,
        new_user)

/-- `login_user` (`src/backend/main.py`, lines 313–361): look the user up
by email hash, check the password and `is_active`, then set `last_login`
and reset `failed_login_attempts` and issue tokens.  Note: no branch logs
a `login_failed` audit event and nothing consults
`check_failed_login_attempts`.  Returns the database state alongside the
response. -/
def login_user (jwt_secret : String) (db : DB) (login : UserLogin)
    (now : Int) (jti1 jti2 : Nat) : DB × Except HTTPError TokenPair :=
  let email_hash := DataEncryptionService.hash_email_for_index login.email
  match db.users.find? (fun u => u.email_hash == email_hash) with
  | none => (db, .error (.unauthorized "Invalid email or password"))
  | some user =>
    if ¬ SecureAuthService.verify_password login.password user.password_hash then
      (db, .error (.unauthorized "Invalid email or password"))
    else if ¬ user.is_active then
      (db, .error (.unauthorized "Account is deactivated"))
    else
      let upd : User := ⟨user.id, user.email_hash, user.email_encrypted,
        user.username, user.password_hash, user.encryption_salt,
        user.is_active, some now, 0, user.created_by⟩
      (⟨db.users.map (fun u => if u.id == user.id then upd else u), db.audit⟩,
        .ok ⟨SecureAuthService.create_access_token jwt_secret user.id none now jti1,
          SecureAuthService.create_refresh_token jwt_secret user.id now jti2⟩)

/-- `get_current_user` (`src/backend/main.py`, lines 190–211): verify the
bearer token, read `payload["sub"]`, look the user up by id and return it.
Any exception inside the `try` (including the 401s raised by
`verify_token` and the user-not-found 401) is caught and re-raised as
401 "Invalid authentication credentials".  **The payload's `type` claim is
never inspected.** -/
def get_current_user (jwt_secret : String) (db : DB) (credentials : JWT)
    (now : Int) : Except HTTPError User :=
  match SecureAuthService.verify_token jwt_secret credentials now with
  | .error _ => .error (.unauthorized "Invalid authentication credentials")
  | .ok payload =>
    match db.users.find? (fun u => u.id == payload.sub) with
    | none => .error (.unauthorized "Invalid authentication credentials")
    | some user => .ok user

/-- The `user_profile` section of a GDPR export. -/
structure ExportProfile where
  id : String
  email : String
  username : String
deriving DecidableEq, Repr

/-- How `export_user_data` can fail. -/
inductive ExportError where
  | notFound
  | decryptionFailed (e : FernetError)
deriving DecidableEq, Repr

/-- `GDPRComplianceService.export_user_data`
(`src/backend/security.py`, lines 235–328), restricted to the
`user_profile` part: look the user up by id, then decrypt the stored email
with a key derived from **`user_id`** (not the username) and the stored
salt.  The email decryption at line 244 is not guarded by any
`try`/`except` (only the conversation loop is), so a decryption failure
propagates out of the call; it is modelled as `decryptionFailed`. -/
def export_user_data (master_key : String) (db : DB) (user_id : String) :
    Except ExportError ExportProfile :=
  match db.users.find? (fun u => u.id == user_id) with
  | none => .error .notFound
  | some user =>
    match DataEncryptionService.decrypt_text master_key user_id
      user.encryption_salt user.email_encrypted with
    | .error e => .error (.decryptionFailed e)
    | .ok email => .ok ⟨user.id, email, user.username⟩

/-! ### C2, C3, C9 -/

/-- Appending to a common prefix is injective on strings. -/
theorem string_append_cancel_left (m a b : String) (h : m ++ a = m ++ b) :
    a = b := by
  have hd : m.data ++ a.data = m.data ++ b.data := congrArg String.data h
  have hab : a.data = b.data := List.append_cancel_left hd
  cases a with
  | mk da =>
    cases b with
    | mk db => exact congrArg String.mk hab

/-- Keys derived for different user ids (same master key, same salt)
differ. -/
theorem derive_user_key_ne_of_user_ne (master u₁ u₂ : String)
    (salt : List Nat) (h : u₁ ≠ u₂) :
    DataEncryptionService.derive_user_key master u₁ salt
      ≠ DataEncryptionService.derive_user_key master u₂ salt := by
  unfold DataEncryptionService.derive_user_key
  intro hEq
  exact h (string_append_cancel_left (master ++ ":") u₁ u₂
    (congrArg FernetKey.password hEq))

/-- Decrypting under any key other than the encryption key fails. -/
theorem fernetDecrypt_wrong_key (key key' : FernetKey) (nonce : Nat)
    (content : String) (h : key ≠ key') :
    fernetDecrypt key' (fernetEncrypt key nonce content)
      = .error .invalidToken := by
  unfold fernetDecrypt fernetEncrypt
  simp only [take_half_append, drop_half_append]
  have hlen : ((fernetBody key nonce content).length
      + (fernetBody key nonce content).length) % 2 = 0 := by omega
  simp [hlen, parseFernetBody_fernetBody, h]

/-- `find?` skips a prefix in which nothing matches. -/
theorem find?_append_of_none {α : Type} (p : α → Bool) (l₁ l₂ : List α)
    (h : l₁.find? p = none) : (l₁ ++ l₂).find? p = l₂.find? p := by
  induction l₁ with
  | nil => simp
  | cons a l ih =>
    cases hpa : p a with
    | true => rw [List.find?_cons_of_pos l hpa] at h; exact absurd h (by simp)
    | false =>
      rw [List.find?_cons_of_neg l (by simp [hpa])] at h
      rw [List.cons_append, List.find?_cons_of_neg (l ++ l₂) (by simp [hpa])]
      exact ih h

/-- **C2** — At registration the email is encrypted with a key derived
from the *username*, while `export_user_data` decrypts it with a key
derived from the user's *id*; so whenever a registration succeeds with a
username different from the (string form of the) database-assigned id,
exporting that user's data fails with the decryption/integrity error
instead of returning the registered email. -/
theorem C2_export_email_key_mismatch (master_key jwt_secret : String)
    (db : DB) (reg : UserRegister) (client_ip : String) (user_salt : List Nat)
    (nonce bsalt : Nat) (new_id : String) (now : Int) (jti1 jti2 : Nat)
    (hstrong : validate_password_strength reg.password = true)
    (hemail : db.users.find? (fun u => u.email_hash
      == DataEncryptionService.hash_email_for_index reg.email) = none)
    (huser : db.users.find? (fun u => u.username == reg.username) = none)
    (hfresh : db.users.find? (fun u => u.id == new_id) = none)
    (hne : reg.username ≠ new_id) :
    ∃ db' tp u, register_user master_key jwt_secret db reg client_ip
        user_salt nonce bsalt new_id now jti1 jti2 = .ok (db', tp, u)
      ∧ export_user_data master_key db' new_id
        = .error (.decryptionFailed .invalidToken) := by
  unfold register_user
  rw [hstrong]
  simp only [not_true, if_false, ite_false, hemail, huser, Option.isSome_none,
    Bool.false_eq_true, if_neg (by simp : ¬ False)]
  refine ⟨_, _, _, rfl, ?_⟩
  · unfold export_user_data
    rw [find?_append_of_none _ _ _ hfresh]
    rw [List.find?_cons_of_pos _ (by simp)]
    unfold DataEncryptionService.decrypt_text DataEncryptionService.encrypt_text
    have hkey := fernetDecrypt_wrong_key
      (DataEncryptionService.derive_user_key master_key reg.username user_salt)
      (DataEncryptionService.derive_user_key master_key new_id user_salt)
      nonce reg.email
      (derive_user_key_ne_of_user_ne master_key reg.username new_id user_salt hne)
    simp [hkey]

/-- Witness for C2 at concrete inputs: registering `"gil"` into an empty
store, with database-assigned id `"42"`. -/
theorem C2_export_email_key_mismatch_witness :
    (validate_password_strength "Abcdef1!" = true ∧ "gil" ≠ "42")
    ∧ ∃ db' tp u, register_user "mk" "jk" ⟨[], []⟩ ⟨"a@b.com", "gil", "Abcdef1!"⟩
        "127.0.0.1" [1] 2 3 "42" 0 4 5 = .ok (db', tp, u)
      ∧ export_user_data "mk" db' "42"
        = .error (.decryptionFailed .invalidToken) :=
  ⟨⟨by decide, by decide⟩,
    C2_export_email_key_mismatch "mk" "jk" ⟨[], []⟩ ⟨"a@b.com", "gil", "Abcdef1!"⟩
      "127.0.0.1" [1] 2 3 "42" 0 4 5 (by decide) rfl rfl rfl (by decide)⟩

/-- One C9 login attempt: request body, clock reading and the two token
ids consumed on success. -/
structure LoginAttempt where
  login : UserLogin
  now : Int
  jti1 : Nat
  jti2 : Nat
deriving DecidableEq, Repr

/-- One `login_user` call, keeping the database state. -/
def login_step (jwt_secret : String) (db : DB) (att : LoginAttempt) : DB :=
  (login_user jwt_secret db att.login att.now att.jti1 att.jti2).1

/-- No branch of `login_user` writes to the audit log. -/
theorem login_user_audit_unchanged (jwt_secret : String) (db : DB)
    (login : UserLogin) (now : Int) (jti1 jti2 : Nat) :
    (login_user jwt_secret db login now jti1 jti2).1.audit = db.audit := by
  simp only [login_user]
  split
  · rfl
  · split
    · rfl
    · split
      · rfl
      · rfl

theorem login_step_audit (jwt_secret : String) (db : DB) (a : LoginAttempt) :
    (login_step jwt_secret db a).audit = db.audit :=
  login_user_audit_unchanged jwt_secret db a.login a.now a.jti1 a.jti2

/-- **C9** — `login_user` never creates a `login_failed` audit event and
never consults the lockout check: after any sequence of login attempts
(failed or successful) processed through `login_user` from a state with an
empty audit log, the audit log is still empty, so
`check_failed_login_attempts` returns false for every identity — no
account is ever locked by the login flow. -/
theorem C9_login_flow_never_locks (jwt_secret : String) (db₀ : DB)
    (attempts : List LoginAttempt) (h0 : db₀.audit = [])
    (email ip : String) (now : Int) :
    (attempts.foldl (login_step jwt_secret) db₀).audit = []
    ∧ SecurityAuditService.check_failed_login_attempts
      (attempts.foldl (login_step jwt_secret) db₀).audit email ip now
      = false := by
  have hpres : ∀ (l : List LoginAttempt) (db : DB), db.audit = [] →
      (l.foldl (login_step jwt_secret) db).audit = [] := by
    intro l
    induction l with
    | nil => intro db h; exact h
    | cons a l ih =>
      intro db h
      rw [List.foldl_cons]
      exact ih _ (by rw [login_step_audit]; exact h)
  refine ⟨hpres attempts db₀ h0, ?_⟩
  rw [hpres attempts db₀ h0]
  rfl

/-- A concrete stored user for the C3/C9 scenarios: registered with
username `"gil"`, database id `"u1"` (so the stored email ciphertext was
produced with the username-derived key). -/
def sampleUser : User :=
  ⟨"u1", DataEncryptionService.hash_email_for_index "a@b.com",
    DataEncryptionService.encrypt_text "mk" "gil" [9] "a@b.com" 4, "gil",
    SecureAuthService.hash_password "Secret1!" 0, [9], true, none, 0,
    "127.0.0.1"⟩

/-- Witness for C9 at concrete inputs: one failed and one successful
attempt against a one-user store. -/
theorem C9_login_flow_never_locks_witness :
    (⟨[sampleUser], []⟩ : DB).audit = []
    ∧ (([⟨⟨"a@b.com", "wrong"⟩, 10, 1, 2⟩, ⟨⟨"a@b.com", "Secret1!"⟩, 20, 3, 4⟩]
          : List LoginAttempt).foldl (login_step "jk")
        ⟨[sampleUser], []⟩).audit = []
    ∧ SecurityAuditService.check_failed_login_attempts
      (([⟨⟨"a@b.com", "wrong"⟩, 10, 1, 2⟩, ⟨⟨"a@b.com", "Secret1!"⟩, 20, 3, 4⟩]
          : List LoginAttempt).foldl (login_step "jk")
        ⟨[sampleUser], []⟩).audit "a@b.com" "5.6.7.8" 1000 = false :=
  ⟨rfl,
    (C9_login_flow_never_locks "jk" ⟨[sampleUser], []⟩
      [⟨⟨"a@b.com", "wrong"⟩, 10, 1, 2⟩, ⟨⟨"a@b.com", "Secret1!"⟩, 20, 3, 4⟩]
      rfl "a@b.com" "5.6.7.8" 1000).1,
    (C9_login_flow_never_locks "jk" ⟨[sampleUser], []⟩
      [⟨⟨"a@b.com", "wrong"⟩, 10, 1, 2⟩, ⟨⟨"a@b.com", "Secret1!"⟩, 20, 3, 4⟩]
      rfl "a@b.com" "5.6.7.8" 1000).2⟩

/-- **C3 (the code, evaluated at the failing input)** — the claim says the
access-token flow rejects refresh tokens, but `get_current_user` accepts
one: with user `"u1"` in the store, a *refresh* token issued for `"u1"`
at time 0 and presented 1 minute later (well inside its 30-day lifetime)
authenticates the request as `"u1"` (`.ok sampleUser`) instead of failing
with a 401.  `verify_token` returns the payload without inspecting the
`type` claim, and `get_current_user` reads only `payload["sub"]`. -/
theorem C3_refresh_token_grants_access :
    (SecureAuthService.create_refresh_token "jk" "u1" 0 7).payload.type
      = "refresh"
    ∧ get_current_user "jk" ⟨[sampleUser], []⟩
        (SecureAuthService.create_refresh_token "jk" "u1" 0 7) 60
      = .ok sampleUser := by
  constructor
  · rfl
  · rfl
